import Mathlib

/-!
Verification of the Reservation_Tool_UIUC scheduling and booking core.

This file shallowly embeds the parts of src/scheduler.py and
src/booking_http.py that the specification's claims are about, and proves
(or refutes) each claim against the embedding.

Modelling conventions:
* Python datetimes are modelled as integers (seconds).  Python's
  datetime.isoformat and datetime.fromisoformat are exact inverses on
  datetime values, so the persisted text form of a datetime is modelled by
  the datetime value it encodes.
* Network calls and exceptions are modelled by explicit environments and
  Option results: a call that may raise is an Option value, with none for
  "an exception was raised"; the caller's try/except blocks become pattern
  matches on that Option.
* Python truthiness of an optional string (None and the empty string are
  falsy) is modelled by the function truthy below.
-/

/-- Python datetime values, in seconds.  Only arithmetic and comparison on
them matter to the claims; datetime.isoformat round-trips exactly through
datetime.fromisoformat, so persistence keeps the value itself. -/
abbrev DateTime := Int

/-- Python truthiness of an optional string: None and the empty string are
falsy, every other string is truthy. -/
def truthy : Option String → Bool
  | none => false
  | some s => s != ""

/-- Mirror of the ScheduledBooking dataclass in src/scheduler.py. -/
structure ScheduledBooking where
  facility : String
  target_date : DateTime
  slot_time : String
  execute_at : DateTime
  facility_id : Option String := none
  status : String := "pending"
  error : Option String := none
  booking_id : Option String := none
deriving DecidableEq

/-- Slots open exactly 72 hours before the time slot
(BookingScheduler.BOOKING_WINDOW_HOURS). -/
def BOOKING_WINDOW_HOURS : Int := 72

/-- How many seconds before the opening time the loop wakes up to prepare
(BookingScheduler.PREP_SECONDS). -/
def PREP_SECONDS : Int := 10

/-- One serialized booking dictionary as written by
BookingScheduler._save_schedule: every field of the dataclass appears under
its own key; datetimes are written with isoformat (kept as the value they
encode, see DateTime); None becomes JSON null, modelled by none.  The
status key is optional here because _load_schedule reads it with a
"pending" default, so a hand-written file may omit it. -/
structure StoredBooking where
  facility : String
  target_date : DateTime
  slot_time : String
  execute_at : DateTime
  facility_id : Option String
  status : Option String
  error : Option String
  booking_id : Option String
deriving DecidableEq

/-- Serialization of one booking, from the dictionary literal inside
BookingScheduler._save_schedule (src/scheduler.py lines 318 to 327). -/
def saveBooking (b : ScheduledBooking) : StoredBooking :=
  { facility := b.facility
    target_date := b.target_date
    slot_time := b.slot_time
    execute_at := b.execute_at
    facility_id := b.facility_id
    status := some b.status
    error := b.error
    booking_id := b.booking_id }

/-- BookingScheduler._save_schedule: the bookings list of the JSON object
written to the schedule file. -/
def save_schedule (l : List ScheduledBooking) : List StoredBooking :=
  l.map saveBooking

/-- Deserialization of one booking dictionary, from the comprehension inside
BookingScheduler._load_schedule (src/scheduler.py lines 344 to 356): the
required keys are read directly, status falls back to "pending", and the
optional keys are read with dict.get (missing or null gives none). -/
def loadBooking (b : StoredBooking) : ScheduledBooking :=
  { facility := b.facility
    target_date := b.target_date
    slot_time := b.slot_time
    execute_at := b.execute_at
    facility_id := b.facility_id
    status := b.status.getD "pending"
    error := b.error
    booking_id := b.booking_id }

/-- The state of the schedule file as _load_schedule observes it: the file
may be absent, its contents may fail to parse as a valid schedule (JSON
error, missing required key, malformed datetime text: every such failure
raises inside the try block), or it parses into a list of booking
dictionaries. -/
inductive StoreFile where
  | missing
  | corrupt
  | parsed (bookings : List StoredBooking)

/-- BookingScheduler._load_schedule (src/scheduler.py lines 335 to 362),
acting on the in-memory scheduled_bookings list: an absent file returns
early leaving the list unchanged; any parse failure is caught by the
except handler which resets the list to empty; otherwise the parsed
dictionaries replace the list. -/
def load_schedule (file : StoreFile) (scheduled_bookings : List ScheduledBooking) :
    List ScheduledBooking :=
  match file with
  | StoreFile.missing => scheduled_bookings
  | StoreFile.corrupt => []
  | StoreFile.parsed bs => bs.map loadBooking

/-- Loading one saved booking gives back the booking unchanged. -/
theorem loadBooking_saveBooking (b : ScheduledBooking) :
    loadBooking (saveBooking b) = b := by
  cases b
  rfl

/-- Claim C3: saving a schedule of M intents and loading it back reproduces
exactly M intents with identical values in every field (the loaded list is
equal to the saved one, hence also of the same length). -/
theorem save_then_load_roundtrip (l : List ScheduledBooking)
    (current : List ScheduledBooking) :
    load_schedule (StoreFile.parsed (save_schedule l)) current = l := by
  show List.map loadBooking (List.map saveBooking l) = l
  rw [List.map_map]
  have h : (loadBooking ∘ saveBooking) = id := by
    funext b
    exact loadBooking_saveBooking b
  rw [h, List.map_id]

/-- Claim C9: when the store file's contents fail to parse as a valid
schedule, _load_schedule does not raise to the caller (the except handler
absorbs the error, which is why the embedding is a total function) and
resets the in-memory schedule to the empty list. -/
theorem load_schedule_corrupt_resets (current : List ScheduledBooking) :
    load_schedule StoreFile.corrupt current = [] :=
  rfl

/-- Claim C10: when the schedule file does not exist, _load_schedule
returns early and the in-memory list of intents is left unchanged. -/
theorem load_schedule_missing_noop (current : List ScheduledBooking) :
    load_schedule StoreFile.missing current = current :=
  rfl

/-- The intent constructed by BookingScheduler.schedule_booking
(src/scheduler.py lines 69 to 112): when execute_at is not supplied it
defaults to target_date minus BOOKING_WINDOW_HOURS hours; an explicit
execute_at is stored as given, with no validation against target_date.
The real method also appends the intent to the in-memory list and saves
the schedule; the claims about it concern only the constructed intent. -/
def schedule_booking (facility : String) (target_date : DateTime)
    (slot_time : String) (facility_id : Option String)
    (execute_at : Option DateTime) : ScheduledBooking :=
  let e : DateTime :=
    match execute_at with
    | none => target_date - BOOKING_WINDOW_HOURS * 3600
    | some t => t
  { facility := facility
    target_date := target_date
    slot_time := slot_time
    execute_at := e
    facility_id := facility_id
    status := "pending"
    error := none
    booking_id := none }

/-- Claim C4 counterexample: schedule_booking accepts an explicit
execute_at later than target_date and stores it unchanged, so the claimed
invariant executeAt at most targetDate fails for this intent (the web UI
passes user-supplied execute-at values straight through, so such calls are
reachable). -/
theorem schedule_booking_override_violates_bound :
    (schedule_booking "ARC_MP1" 0 "11 AM - 12 PM" none (some 3600)).target_date
      < (schedule_booking "ARC_MP1" 0 "11 AM - 12 PM" none (some 3600)).execute_at := by
  decide

/-- Claim C4 as amended: when no explicit execute-at is supplied, the
created intent has executeAt equal to targetDate minus exactly 72 hours,
and hence executeAt is at most targetDate; an explicitly supplied
execute-at is stored unchanged (and may exceed targetDate). -/
theorem schedule_booking_execute_at_spec (facility : String)
    (target_date : DateTime) (slot_time : String)
    (facility_id : Option String) :
    ((schedule_booking facility target_date slot_time facility_id none).execute_at
        = target_date - 72 * 3600 ∧
      (schedule_booking facility target_date slot_time facility_id none).execute_at
        ≤ target_date) ∧
    ∀ t : DateTime,
      (schedule_booking facility target_date slot_time facility_id (some t)).execute_at
        = t := by
  refine ⟨⟨rfl, ?_⟩, fun t => rfl⟩
  show target_date - 72 * 3600 ≤ target_date
  exact sub_le_self target_date (by norm_num)

/-- BookingScheduler.cancel_booking (src/scheduler.py lines 295 to 312):
the index (a Python int, possibly negative) must lie in range and the
intent at it must still be pending for the removal to happen; every other
case returns False and leaves the list untouched. -/
def cancel_booking (l : List ScheduledBooking) (index : Int) :
    Bool × List ScheduledBooking :=
  if h : 0 ≤ index ∧ index < (l.length : Int) then
    let booking := l.get ⟨index.toNat, by omega⟩
    if booking.status = "pending" then (true, l.eraseIdx index.toNat)
    else (false, l)
  else (false, l)

/-- Claim C7: cancel_booking returns true exactly when the index is in
range and the intent there is pending; on true the intent is removed from
the list (so it no longer appears in list results), and on false the
stored schedule is entirely unchanged. -/
theorem cancel_booking_spec (l : List ScheduledBooking) (index : Int) :
    ((cancel_booking l index).1 = true ↔
      ∃ b, 0 ≤ index ∧ l.get? index.toNat = some b ∧ b.status = "pending") ∧
    ((cancel_booking l index).1 = true →
      (cancel_booking l index).2 = l.eraseIdx index.toNat) ∧
    ((cancel_booking l index).1 = false → (cancel_booking l index).2 = l) := by
  by_cases h : 0 ≤ index ∧ index < (l.length : Int)
  · have hlt : index.toNat < l.length := by omega
    by_cases hp : (l.get ⟨index.toNat, hlt⟩).status = "pending"
    · have hcb : cancel_booking l index = (true, l.eraseIdx index.toNat) := by
        unfold cancel_booking
        rw [dif_pos h]
        show (if (l.get ⟨index.toNat, hlt⟩).status = "pending" then _ else _) = _
        rw [if_pos hp]
      rw [hcb]
      exact ⟨⟨fun _ => ⟨l.get ⟨index.toNat, hlt⟩, h.1, List.get?_eq_get hlt, hp⟩,
        fun _ => rfl⟩, fun _ => rfl, fun hfalse => by simp at hfalse⟩
    · have hcb : cancel_booking l index = (false, l) := by
        unfold cancel_booking
        rw [dif_pos h]
        show (if (l.get ⟨index.toNat, hlt⟩).status = "pending" then _ else _) = _
        rw [if_neg hp]
      rw [hcb]
      refine ⟨⟨fun htrue => by simp at htrue, ?_⟩,
        fun htrue => by simp at htrue, fun _ => rfl⟩
      rintro ⟨b, -, hb, hbp⟩
      rw [List.get?_eq_get hlt] at hb
      exact absurd (Option.some.inj hb ▸ hbp) hp
  · have hcb : cancel_booking l index = (false, l) := by
      unfold cancel_booking
      rw [dif_neg h]
    rw [hcb]
    refine ⟨⟨fun htrue => by simp at htrue, ?_⟩,
      fun htrue => by simp at htrue, fun _ => rfl⟩
    rintro ⟨b, hge, hb, -⟩
    obtain ⟨hlt', -⟩ := List.get?_eq_some.mp hb
    exact (h ⟨hge, by omega⟩).elim

/-- Convenience bookings used by the concrete witnesses below. -/
def samplePendingBooking : ScheduledBooking :=
  { facility := "ARC_MP1"
    target_date := 266400
    slot_time := "11 AM - 12 PM"
    execute_at := 7200
    facility_id := none
    status := "pending"
    error := none
    booking_id := none }

/-- Witness for claim C7: cancelling index 0 of a one-element schedule
whose single intent is pending succeeds and removes it. -/
theorem cancel_booking_spec_witness :
    (cancel_booking [samplePendingBooking] 0).1 = true ∧
    (cancel_booking [samplePendingBooking] 0).2
      = List.eraseIdx [samplePendingBooking] 0 := by
  refine ⟨by decide, (cancel_booking_spec [samplePendingBooking] 0).2.1 (by decide)⟩

/-- Left fold of Python min over (index, intent) pairs keyed by execute_at:
min(pending, key=lambda b: b.execute_at) scans left to right and keeps the
earliest element among ties.  The index records where the chosen intent
sits in the loaded bookings list, so that the in-place mutation performed
by _execute_booking can be modelled as a positional update. -/
def py_min_fold (k : Nat × ScheduledBooking) :
    List (Nat × ScheduledBooking) → Nat × ScheduledBooking
  | [] => k
  | x :: rest => py_min_fold (if x.2.execute_at < k.2.execute_at then x else k) rest

/-- Position in the loaded bookings list of the intent run_scheduler picks:
the list is filtered to the pending intents (preserving order, as the
Python list comprehension does) and Python's min selects the first pending
intent with the smallest execute_at.  none exactly when no intent is
pending. -/
def pending_min_index (bookings : List ScheduledBooking) : Option Nat :=
  match bookings.enum.filter (fun p => p.2.status == "pending") with
  | [] => none
  | p :: ps => some (py_min_fold p ps).1

/-- BookingScheduler.run_scheduler with daemon=False (src/scheduler.py
lines 171 to 232): every branch of the loop body ends in break when daemon
is off, so the whole run is a single iteration.  The iteration first
reloads the schedule from the store file, exits if no intent is pending,
otherwise picks the pending intent with the earliest execute_at; if more
than PREP_SECONDS remain before it the loop exits without executing,
otherwise _execute_booking mutates that intent in place (modelled by the
caller-supplied function ex covering preparation, the residual sleep and
the executor call) and the schedule is saved.  Returns the final in-memory
list (which _save_schedule would persist verbatim) and the intent handed
to _execute_booking, if any.  The signal-file and cookie-refresh checks
touch no intent state and are omitted. -/
def run_scheduler_single_shot (ex : ScheduledBooking → ScheduledBooking)
    (file : StoreFile) (current : List ScheduledBooking) (now : Int) :
    List ScheduledBooking × Option ScheduledBooking :=
  let bookings := load_schedule file current
  match pending_min_index bookings with
  | none => (bookings, none)
  | some i =>
    match bookings[i]? with
    | none => (bookings, none)
    | some next =>
      if next.execute_at - now > PREP_SECONDS then (bookings, none)
      else (bookings.set i (ex next), some next)

/-- Claim C5: when the store holds exactly one pending intent whose
execute_at lies more than the preparation margin (PREP_SECONDS = 10 s) in
the future and daemon mode is off, the scheduler run terminates without
invoking the booking executor (no intent is handed to _execute_booking)
and with the intent unchanged in every field. -/
theorem run_scheduler_single_shot_early_exit
    (ex : ScheduledBooking → ScheduledBooking) (b : ScheduledBooking)
    (current : List ScheduledBooking) (now : Int)
    (hp : b.status = "pending")
    (ht : b.execute_at - now > PREP_SECONDS) :
    run_scheduler_single_shot ex (StoreFile.parsed (save_schedule [b])) current now
      = ([b], none) := by
  have hload : load_schedule (StoreFile.parsed (save_schedule [b])) current = [b] := by
    show [loadBooking (saveBooking b)] = [b]
    rw [loadBooking_saveBooking]
  have hfilter : List.filter (fun p => p.2.status == "pending") (List.enum [b])
      = [(0, b)] := by
    show List.filter (fun p => p.2.status == "pending") [(0, b)] = [(0, b)]
    simp [List.filter_cons, hp]
  have hpend : pending_min_index [b] = some 0 := by
    unfold pending_min_index
    rw [hfilter]
    rfl
  simp only [run_scheduler_single_shot, hload, hpend]
  show (if b.execute_at - now > PREP_SECONDS then ([b], none) else _) = ([b], none)
  rw [if_pos ht]

/-- Witness for claim C5: a concrete pending intent whose execute_at is
two hours in the future is left untouched and unexecuted. -/
theorem run_scheduler_single_shot_early_exit_witness :
    run_scheduler_single_shot id
        (StoreFile.parsed (save_schedule [samplePendingBooking])) [] 0
      = ([samplePendingBooking], none) :=
  run_scheduler_single_shot_early_exit id samplePendingBooking [] 0 rfl (by decide)

/-- Parsed JSON body of the reserve endpoint's reply, as
FastBookingClient._submit_booking reads it: result.get of the Success key
(truthiness, modelled as a Bool that is false when the key is absent or
falsy) and result.get of the ErrorCode key. -/
structure ReserveResponse where
  Success : Bool
  ErrorCode : Option String := none
deriving DecidableEq

/-- What the POST to the reserve endpoint can come back as: a raised
requests exception (timeout, connection failure), or a response with an
HTTP status code whose body either parses as JSON (some) or raises in
response.json() (none). -/
inductive HttpResponse where
  | exn
  | response (status_code : Nat) (body : Option ReserveResponse)
deriving DecidableEq

/-- FastBookingClient._submit_booking (src/booking_http.py lines 407 to
484), reduced to its decision on the response: True only when the status
code is exactly 200, the body parses as JSON and the parsed Success flag
is truthy; a non-200 status, a malformed body, a well-formed non-success
reply and a raised network exception all return False. -/
def submit_booking : HttpResponse → Bool
  | HttpResponse.exn => false
  | HttpResponse.response status_code body =>
    if status_code = 200 then
      match body with
      | some result => result.Success
      | none => false
    else false

/-- Claim C6 counterexample: a 201 response (a 2xx status) whose body is
well-formed JSON with the Success flag set is still reported as a miss,
because the code tests status_code == 200, not the whole 2xx class. -/
theorem submit_booking_201_success_body_false :
    submit_booking (HttpResponse.response 201 (some { Success := true })) = false := by
  decide

/-- Claim C6 as amended: _submit_booking returns true iff the HTTP status
is exactly 200 (not any 2xx), the body parses as JSON and the parsed
success flag is set; any other status (including other 2xx codes), a
malformed body, a well-formed non-success response and a network timeout
all yield a per-resource miss (false) rather than an exception. -/
theorem submit_booking_success_iff (resp : HttpResponse) :
    submit_booking resp = true ↔
      ∃ r : ReserveResponse,
        resp = HttpResponse.response 200 (some r) ∧ r.Success = true := by
  cases resp with
  | exn =>
    simp only [submit_booking]
    constructor
    · intro hfalse
      exact absurd hfalse (by simp)
    · rintro ⟨r, hr, -⟩
      exact absurd hr (by simp)
  | response status_code body =>
    simp only [submit_booking]
    by_cases hs : status_code = 200
    · subst hs
      cases body with
      | none =>
        simp only [if_pos rfl]
        constructor
        · intro hfalse
          exact absurd hfalse (by simp)
        · rintro ⟨r, hr, -⟩
          simp at hr
      | some result =>
        simp only [if_pos rfl]
        constructor
        · intro hS
          exact ⟨result, rfl, hS⟩
        · rintro ⟨r, hr, hS⟩
          obtain ⟨-, hb⟩ := by exact HttpResponse.response.inj hr
          rw [Option.some.inj hb]
          exact hS
    · rw [if_neg hs]
      constructor
      · intro hfalse
        exact absurd hfalse (by simp)
      · rintro ⟨r, hr, -⟩
        exact absurd (HttpResponse.response.inj hr).1 hs

/-- Outcome of one court-selection call: FastBookingClient's
_select_initial_court either returns a court ID or raises (ValueError for
a strategy that matched no branch; IndexError from random.choice or list
indexing on an empty court list). -/
inductive SelectResult where
  | ok (court : String)
  | exn (msg : String)
deriving DecidableEq

/-- FastBookingClient._select_initial_court (src/booking_http.py lines 343
to 376).  The choice argument models random.choice on a non-empty list.
Branches in source order: the cached branch fires only when the strategy
is "cached" AND the hint is truthy AND the hint is in the list — when any
of those fail, Python falls through the elif chain, so strategy "cached"
with a missing or stale hint reaches the final else and raises
ValueError("Unknown strategy: cached"). -/
def select_initial_court (choice : List String → String)
    (all_facility_ids : List String) (known_facility_id : Option String)
    (strategy : String) : SelectResult :=
  if strategy = "cached" ∧ truthy known_facility_id
      ∧ known_facility_id.getD "" ∈ all_facility_ids then
    SelectResult.ok (known_facility_id.getD "")
  else if strategy = "random" then
    match all_facility_ids with
    | [] => SelectResult.exn "IndexError"
    | _ :: _ => SelectResult.ok (choice all_facility_ids)
  else if strategy = "first" then
    match all_facility_ids with
    | [] => SelectResult.exn "IndexError"
    | c :: _ => SelectResult.ok c
  else
    SelectResult.exn ("Unknown strategy: " ++ strategy)

/-- Claim C2, behaviour of the code at the failing input: with strategy
"cached", a non-empty resolved list and no remembered hint, the selection
does not return a resource from the list — it raises
ValueError("Unknown strategy: cached").  The same happens whenever the
hint is absent from the list.  This contradicts both the claim and the
method's own docstring, which lists "cached" among the valid strategies. -/
theorem select_initial_court_cached_missing_hint_raises :
    select_initial_court (fun l => l.headD "") ["A", "B"] none "cached"
        = SelectResult.exn "Unknown strategy: cached" ∧
    select_initial_court (fun l => l.headD "") ["A", "B"] (some "C") "cached"
        = SelectResult.exn "Unknown strategy: cached" := by
  exact ⟨by decide, by decide⟩

/-- One bookable slot as FastBookingClient._parse_slots produces it: the
data attributes of an enabled slot button.  Only time_text (the label the
desired slot is matched against, always present because falsy labels are
skipped) and the identifiers forwarded to the reserve request matter to
the claims. -/
structure Slot where
  apt_id : Option String := none
  timeslot_id : Option String := none
  timeslot_instance_id : String := "00000000-0000-0000-0000-000000000000"
  slot_number : Option String := none
  time_text : String
  spots_available : Option String := none
deriving DecidableEq

/-- Network environment of one book_slot run.  get_all_facility_ids is the
result of _get_all_facility_ids (none when it raised; the source never
returns an empty list, it raises instead).  fetch_slots gives each court's
parsed slot list, none when _fetch_slots_for_court raised.  submit gives
_submit_booking's verdict for a court and slot (that function absorbs its
own errors into False, see submit_booking).  choice models random.choice
for the random strategy. -/
structure BookEnv where
  get_all_facility_ids : Option (List String)
  fetch_slots : String → Option (List Slot)
  submit : String → Slot → Bool
  choice : List String → String

/-- FastBookingClient._attempt_booking_on_court (src/booking_http.py lines
486 to 537): fetch the court's slots (a raised fetch is absorbed into a
miss), scan them for the first slot whose time_text equals slot_time
verbatim (absent means a miss), then either synthesize success on a dry
run or submit and report the court ID on success, none on a miss. -/
def attempt_booking_on_court (env : BookEnv) (facility_id : String)
    (slot_time : String) (dry_run : Bool) : Option String :=
  match env.fetch_slots facility_id with
  | none => none
  | some slots =>
    match slots.find? (fun s => s.time_text == slot_time) with
    | none => none
    | some target_slot =>
      if dry_run then some facility_id
      else if env.submit facility_id target_slot then some facility_id
      else none

/-- The fallback loop at the end of book_slot (src/booking_http.py lines
658 to 671): walk all_facility_ids in catalog order, skip every entry
equal to the court already tried, and stop at the first successful
attempt.  Returns the winning court (none if all missed) together with
the list of courts attempted by the loop, in order. -/
def try_remaining_courts (env : BookEnv) (slot_time : String) (dry_run : Bool)
    (initial_court : String) : List String → Option String × List String
  | [] => (none, [])
  | c :: rest =>
    if c = initial_court then
      try_remaining_courts env slot_time dry_run initial_court rest
    else
      match attempt_booking_on_court env c slot_time dry_run with
      | some winner => (some winner, [c])
      | none =>
        let r := try_remaining_courts env slot_time dry_run initial_court rest
        (r.1, c :: r.2)

/-- Result of one book_slot call: the returned Bool, the facility table's
cached facility_id after the call (book_slot overwrites it with the
winning court on success and leaves it alone otherwise), the courts
handed to _attempt_booking_on_court in order, and the message of an
exception that escaped (only _select_initial_court can raise here). -/
structure BookResult where
  success : Bool
  cache : Option String
  attempts : List String
  raised : Option String := none
deriving DecidableEq

/-- FastBookingClient.book_slot (src/booking_http.py lines 572 to 675),
for a known facility.  known_facility_id is the facility table's cached
facility_id at entry; facility_id is the caller-supplied court.  Paths in
source order: a truthy explicit court gets the single-court fast path; a
raised _get_all_facility_ids is absorbed into False; a one-court catalog
gets the fast path; otherwise _select_initial_court picks the initial
court (its ValueError propagates out of book_slot), that court is tried
first, and on a miss the fallback loop tries the remaining courts in
catalog order. -/
def book_slot (env : BookEnv) (known_facility_id : Option String)
    (slot_time : String) (facility_id : Option String) (dry_run : Bool)
    (court_selection : String) : BookResult :=
  if truthy facility_id then
    let fid := facility_id.getD ""
    match attempt_booking_on_court env fid slot_time dry_run with
    | some winner => { success := true, cache := some winner, attempts := [fid] }
    | none => { success := false, cache := known_facility_id, attempts := [fid] }
  else
    match env.get_all_facility_ids with
    | none => { success := false, cache := known_facility_id, attempts := [] }
    | some all_facility_ids =>
      match all_facility_ids with
      | [single] =>
        match attempt_booking_on_court env single slot_time dry_run with
        | some winner =>
          { success := true, cache := some winner, attempts := [single] }
        | none =>
          { success := false, cache := known_facility_id, attempts := [single] }
      | _ =>
        match select_initial_court env.choice all_facility_ids known_facility_id
            court_selection with
        | SelectResult.exn msg =>
          { success := false, cache := known_facility_id, attempts := []
            raised := some msg }
        | SelectResult.ok initial_court =>
          match attempt_booking_on_court env initial_court slot_time dry_run with
          | some winner =>
            { success := true, cache := some winner, attempts := [initial_court] }
          | none =>
            let r := try_remaining_courts env slot_time dry_run initial_court
              all_facility_ids
            match r.1 with
            | some winner =>
              { success := true, cache := some winner
                attempts := initial_court :: r.2 }
            | none =>
              { success := false, cache := known_facility_id
                attempts := initial_court :: r.2 }

/-- Claim C1: with three resolved courts A, B, C, strategy "first"
selecting A, and the desired slot label present only on C (A and B report
misses), book_slot succeeds, attempts A first and then the remaining
courts in catalog order (B then C, skipping only the already-tried A),
and records C as the new cached resource hint. -/
theorem book_slot_first_strategy_fallback (env : BookEnv)
    (A B C slot_time : String) (known_facility_id : Option String)
    (hall : env.get_all_facility_ids = some [A, B, C])
    (hBA : B ≠ A) (hCA : C ≠ A)
    (hA : attempt_booking_on_court env A slot_time false = none)
    (hB : attempt_booking_on_court env B slot_time false = none)
    (hC : attempt_booking_on_court env C slot_time false = some C) :
    book_slot env known_facility_id slot_time none false "first"
      = { success := true, cache := some C, attempts := [A, B, C] } := by
  have hsel : select_initial_court env.choice [A, B, C] known_facility_id "first"
      = SelectResult.ok A := by
    unfold select_initial_court
    rw [if_neg (by simp), if_neg (by simp), if_pos rfl]
  have hrem : try_remaining_courts env slot_time false A [A, B, C]
      = (some C, [B, C]) := by
    unfold try_remaining_courts
    rw [if_pos rfl]
    unfold try_remaining_courts
    rw [if_neg hBA, hB]
    unfold try_remaining_courts
    rw [if_neg hCA, hC]
  simp only [book_slot, truthy, hall, hsel, hA, hrem]
  rfl

/-- The one slot of the witness environment for claim C1. -/
def witnessSlot : Slot := { time_text := "6 PM - 7 PM" }

/-- Witness environment for claim C1: three courts, the desired label
exists only on court C, submission always succeeds where attempted. -/
def witnessEnv : BookEnv :=
  { get_all_facility_ids := some ["A", "B", "C"]
    fetch_slots := fun c => if c = "C" then some [witnessSlot] else some []
    submit := fun _ _ => true
    choice := fun l => l.headD "" }

/-- Witness for claim C1: the concrete three-court scenario of the spec
ends in success with attempts A, B, C and cached hint C. -/
theorem book_slot_first_strategy_fallback_witness :
    book_slot witnessEnv none "6 PM - 7 PM" none false "first"
      = { success := true, cache := some "C", attempts := ["A", "B", "C"] } :=
  book_slot_first_strategy_fallback witnessEnv "A" "B" "C" "6 PM - 7 PM" none
    rfl (by decide) (by decide) rfl rfl rfl

/-- Network environment of one prepare_booking call: the result of the
pre-fetch of all facility IDs (none when _get_all_facility_ids raised) and
the result of the _get_facility_id fallback used in the except branch
(none when that raised too). -/
structure PrepareEnv where
  all_facility_ids : Option (List String)
  fallback_facility_id : Option String

/-- Result of prepare_booking: the returned value together with the
facility table's cached facility_id after the call, or a propagated
exception (only the _get_facility_id fallback can raise out). -/
inductive PrepareResult where
  | ret (value : Option String) (cache : Option String)
  | raised (cache : Option String)
deriving DecidableEq

/-- FastBookingClient.prepare_booking (src/booking_http.py lines 152 to
209) for a known facility; known_facility_id is the facility table's
cached ID, facility_id the caller's.  Connection warm-up touches no
modelled state.  A truthy caller ID is returned directly; otherwise the
pre-fetch decides: exactly one court is cached and returned, several
courts return None (full multi-court logic later); if the pre-fetch
raised, a truthy cached ID is returned, else _get_facility_id is
consulted, cached and returned (its own failure propagates). -/
def prepare_booking (env : PrepareEnv) (known_facility_id : Option String)
    (facility_id : Option String) : PrepareResult :=
  if truthy facility_id then PrepareResult.ret facility_id known_facility_id
  else
    match env.all_facility_ids with
    | some [single] => PrepareResult.ret (some single) (some single)
    | some _ => PrepareResult.ret none known_facility_id
    | none =>
      if truthy known_facility_id then
        PrepareResult.ret known_facility_id known_facility_id
      else
        match env.fallback_facility_id with
        | some fid => PrepareResult.ret (some fid) (some fid)
        | none => PrepareResult.raised known_facility_id

/-- Result of the book_slot call made at the end of _execute_booking: it
returned a Bool or raised (the exception message becomes the intent's
error field). -/
inductive BookCallOutcome where
  | returns (success : Bool)
  | raises (msg : String)

/-- Snapshots of the intent along BookingScheduler._execute_booking:
its state at the moment prepare_booking is entered, its state after the
preparation try/except block (just before the residual sleep and the
book_slot call), and its final state. -/
structure ExecuteTrace where
  at_prepare_start : ScheduledBooking
  after_prepare : ScheduledBooking
  final : ScheduledBooking
deriving DecidableEq

/-- BookingScheduler._execute_booking (src/scheduler.py lines 234 to 287):
the intent's status is set to "executing" first (line 242), then
prepare_booking runs inside try/except (a raised preparation is absorbed);
a truthy returned facility ID overwrites the intent's facility_id; after
the residual sleep, book_slot's outcome sets the terminal status, with the
error field recording the failure. -/
def execute_booking (penv : PrepareEnv) (known_facility_id : Option String)
    (outcome : BookCallOutcome) (booking : ScheduledBooking) : ExecuteTrace :=
  let b1 := { booking with status := "executing" }
  let b2 :=
    match prepare_booking penv known_facility_id b1.facility_id with
    | PrepareResult.raised _ => b1
    | PrepareResult.ret value _ =>
      match value with
      | some id => if id = "" then b1 else { b1 with facility_id := some id }
      | none => b1
  let b3 :=
    match outcome with
    | BookCallOutcome.returns true => { b2 with status := "success" }
    | BookCallOutcome.returns false =>
      { b2 with status := "failed", error := some "Booking returned False" }
    | BookCallOutcome.raises msg =>
      { b2 with status := "failed", error := some msg }
  { at_prepare_start := b1, after_prepare := b2, final := b3 }

/-- Claim C8 counterexample: for a concrete pending intent, the intent's
state at the moment the preparation step starts already differs from the
scheduled intent — the code sets status to "executing" before warm-up,
not after it, so the claim that every field is unchanged during
preparation and that "executing" is applied only after warm-up completes
fails. -/
theorem execute_booking_mutates_before_prepare :
    (execute_booking { all_facility_ids := some ["A", "B"], fallback_facility_id := none }
        none (BookCallOutcome.returns true) samplePendingBooking).at_prepare_start
      ≠ samplePendingBooking ∧
    (execute_booking { all_facility_ids := some ["A", "B"], fallback_facility_id := none }
        none (BookCallOutcome.returns true) samplePendingBooking).at_prepare_start.status
      = "executing" := by
  exact ⟨by decide, by decide⟩

/-- Claim C8 as amended: _execute_booking marks the intent "executing"
immediately before the warm-up, not after it; during the preparation step
every field of the intent other than facility_id is unchanged (facility_id
may be overwritten with the pre-resolved resource ID that preparation
returns); only then are the residual delta slept and the executor
invoked. -/
theorem execute_booking_prepare_frame (penv : PrepareEnv)
    (known_facility_id : Option String) (outcome : BookCallOutcome)
    (b : ScheduledBooking) :
    (execute_booking penv known_facility_id outcome b).at_prepare_start
        = { b with status := "executing" } ∧
    (execute_booking penv known_facility_id outcome b).after_prepare
        = { (execute_booking penv known_facility_id outcome b).at_prepare_start with
            facility_id :=
              (execute_booking penv known_facility_id outcome b).after_prepare.facility_id } := by
  have h1 : (execute_booking penv known_facility_id outcome b).at_prepare_start
      = { b with status := "executing" } := rfl
  have h2 : (execute_booking penv known_facility_id outcome b).after_prepare
      = (match prepare_booking penv known_facility_id b.facility_id with
        | PrepareResult.raised _ => { b with status := "executing" }
        | PrepareResult.ret value _ =>
          match value with
          | some id =>
            if id = "" then { b with status := "executing" }
            else { b with status := "executing", facility_id := some id }
          | none => { b with status := "executing" }) := rfl
  refine ⟨h1, ?_⟩
  rw [h2, h1]
  cases prepare_booking penv known_facility_id b.facility_id with
  | raised c => rfl
  | ret value c =>
    cases value with
    | none => rfl
    | some id =>
      by_cases hid : id = ""
      · simp [hid]
      · simp [hid]
